import Mathlib

/-!
Shallow embedding of `src/python-scripts/auto_deploy.py`, a deployment
orchestration script (stop, backup, deploy, start, health-check, rollback).

External effects (shell commands, process queries, health probes, the
filesystem, interruption) are modelled by oracle inputs: each function takes
the results its external calls would return, and the filesystem is an explicit
`FsState` threaded through.  `main_run` records the calls it makes in an event
list so that sequencing claims can be stated over the trace.
-/

namespace AutoDeploy

/-- Configuration constant `APP_NAME` from STEP 1 of the script. -/
def APP_NAME : String := "web-application"

/-- Configuration constant `APP_VERSION` from STEP 1 of the script. -/
def APP_VERSION : String := "v2.5.0"

/-- Configuration constant `BACKUP_DIR` from STEP 1 of the script. -/
def BACKUP_DIR : String := "/opt/backups/web-application"

/-- Configuration constant `DEPLOY_DIR` from STEP 1 of the script. -/
def DEPLOY_DIR : String := "/opt/applications/web-application"

/-- Contents of a directory tree, as an association list from relative file
path to file bytes. -/
abbrev Content := List (String × String)

/-- The filesystem as far as the script reads or writes it: the deployment
location (`none` when `DEPLOY_DIR` does not exist) and the store of backups
created under `BACKUP_DIR`, keyed by backup path. -/
structure FsState where
  deployContents : Option Content
  backupStore : List (String × Content)
deriving DecidableEq, Repr

/-- What one `subprocess.run` call did: a normal exit with a return code, a
`TimeoutExpired`, or a spawn-time exception (command could not be launched). -/
inductive CmdOutcome where
  | exited (code : Int)
  | timedOut
  | launchFailed (msg : String)
deriving DecidableEq, Repr

/-- `run_command` (STEP 3): returns `True` iff the command exited with code 0.
`subprocess.TimeoutExpired` and every other exception are caught and also
yield `False`. -/
def run_command (o : CmdOutcome) : Bool :=
  match o with
  | CmdOutcome.exited code => if code = 0 then true else false
  | CmdOutcome.timedOut => false
  | CmdOutcome.launchFailed _ => false

/-- The category of log line `run_command` prints for each outcome
(`print_success` on exit 0, the exit-code error, the timeout error, or the
generic launch-failure error). -/
inductive CmdLog where
  | okMsg
  | exitCodeMsg (code : Int)
  | timeoutMsg
  | launchFailedMsg (msg : String)
deriving DecidableEq, Repr

/-- The log line printed by `run_command` for each command outcome. -/
def run_command_log (o : CmdOutcome) : CmdLog :=
  match o with
  | CmdOutcome.exited code =>
      if code = 0 then CmdLog.okMsg else CmdLog.exitCodeMsg code
  | CmdOutcome.timedOut => CmdLog.timeoutMsg
  | CmdOutcome.launchFailed m => CmdLog.launchFailedMsg m

/-- `check_app_running` (STEP 4): `pgrep -f APP_NAME` exit code 0 means the
application is running; any other exit code (including pgrep errors) means
not running. -/
def check_app_running (pgrepExit : Int) : Bool := pgrepExit == 0

/-- The externally visible steps taken by `stop_application`, in order:
the SIGTERM `pkill` command (with its success), the 5s grace sleep, the
re-check of `check_app_running` (with its result), the SIGKILL `pkill`
command (with its success), and the 2s post-kill sleep. -/
inductive StopEvent where
  | sigtermCmd (ok : Bool)
  | sleepGrace
  | recheck (running : Bool)
  | sigkillCmd (ok : Bool)
  | sleepForce
deriving DecidableEq, Repr

/-- `stop_application` (STEP 5).  Oracles: `termOk` is the success of the
SIGTERM `pkill` command, `stillRunning` the result of the `check_app_running`
re-check after the grace sleep, `killOk` the success of the SIGKILL `pkill`
command.  Returns the boolean result together with the ordered trace of
external steps actually taken. -/
def stop_application (termOk stillRunning killOk : Bool) :
    Bool × List StopEvent :=
  if termOk then
    if stillRunning = false then
      (true, [StopEvent.sigtermCmd true, StopEvent.sleepGrace,
              StopEvent.recheck false])
    else
      if killOk then
        (true, [StopEvent.sigtermCmd true, StopEvent.sleepGrace,
                StopEvent.recheck true, StopEvent.sigkillCmd true,
                StopEvent.sleepForce])
      else
        (false, [StopEvent.sigtermCmd true, StopEvent.sleepGrace,
                 StopEvent.recheck true, StopEvent.sigkillCmd false])
  else
    if killOk then
      (true, [StopEvent.sigtermCmd false, StopEvent.sigkillCmd true,
              StopEvent.sleepForce])
    else
      (false, [StopEvent.sigtermCmd false, StopEvent.sigkillCmd false])

/-- `backup_current_version` (STEP 6).  If `DEPLOY_DIR` does not exist it
returns `None` without touching the filesystem.  Otherwise it runs
`mkdir -p BACKUP_DIR && cp -r DEPLOY_DIR backup_path`; on success (`cmdOk`)
the backup path now holds a copy of the deployment contents and the path is
returned, on failure it returns `None`. -/
def backup_current_version (ts : String) (cmdOk : Bool) (fs : FsState) :
    Option String × FsState :=
  match fs.deployContents with
  | none => (none, fs)
  | some c =>
      let backup_path := BACKUP_DIR ++ "/" ++ APP_NAME ++ "_" ++ ts
      if cmdOk then
        (some backup_path,
         { fs with backupStore := (backup_path, c) :: fs.backupStore })
      else (none, fs)

/-- Effect of `cp -r SOURCE_DIR/* DEPLOY_DIR/`: source entries overwrite
same-named entries of the existing deployment, other existing entries are
kept. -/
def copyInto (src : Content) (base : Content) : Content :=
  src ++ base.filter (fun kv => (src.lookup kv.1).isNone)

/-- `deploy_new_version` (STEP 7): fails fast when `SOURCE_DIR` is missing,
then `mkdir -p DEPLOY_DIR`, then the recursive copy, then `chmod +x` on the
installed scripts; the first failing step aborts with `False`.  The copy never
deletes anything and the backup store is untouched. -/
def deploy_new_version (sourceExists mkdirOk cpOk chmodOk : Bool)
    (src : Content) (fs : FsState) : Bool × FsState :=
  if sourceExists = false then (false, fs)
  else if mkdirOk = false then (false, fs)
  else
    let fs1 : FsState := { fs with deployContents := some (fs.deployContents.getD []) }
    if cpOk = false then (false, fs1)
    else
      let fs2 : FsState :=
        { fs1 with deployContents := some (copyInto src (fs.deployContents.getD [])) }
      if chmodOk = false then (false, fs2)
      else (true, fs2)

/-- `start_application` (STEP 8): whether `start.sh` exists only selects which
start command is run; the returned success is the `run_command` result of that
command either way (followed by a fixed 3s settle sleep). -/
def start_application (scriptExists cmdOk : Bool) : Bool :=
  if scriptExists then cmdOk else cmdOk

/-- The `while attempt <= max_attempts` loop of `health_check` (STEP 9),
made structural on `remaining = max_attempts + 1 - attempt`.  Returns
(healthy, number of probe calls made, number of 5s interval sleeps taken).
A successful probe short-circuits; after a failed probe the loop sleeps only
if `attempt < max_attempts`. -/
def health_check_go (probe : Nat → Bool) (max_attempts : Nat) :
    Nat → Nat → Bool × Nat × Nat
  | _, 0 => (false, 0, 0)
  | attempt, remaining + 1 =>
      if probe attempt then (true, 1, 0)
      else
        let rest := health_check_go probe max_attempts (attempt + 1) remaining
        (rest.1, rest.2.1 + 1,
         rest.2.2 + (if attempt < max_attempts then 1 else 0))

/-- `health_check` (STEP 9): attempts numbered from 1 up to `max_attempts`
(the script uses `max_attempts = 12`); `probe n` is the success of the `curl`
probe on attempt `n`. -/
def health_check (probe : Nat → Bool) (max_attempts : Nat) :
    Bool × Nat × Nat :=
  health_check_go probe max_attempts 1 max_attempts

/-- Oracle inputs consumed by one `rollback` call: the three oracles of its
(best-effort, result-ignored) `stop_application` call, the success of the
`rm -rf DEPLOY_DIR && cp -r backup_path DEPLOY_DIR` restore command, and the
two oracles of its `start_application` call. -/
structure RbEnv where
  stopTermOk : Bool
  stopStillRunning : Bool
  stopKillOk : Bool
  restoreOk : Bool
  startScriptExists : Bool
  startCmdOk : Bool
deriving DecidableEq, Repr

/-- The externally visible actions of `rollback`, in order. `deployDeleted`
marks the `rm -rf DEPLOY_DIR` part of the restore command; `restoreDone` the
completed `cp -r` back. -/
inductive RbAction where
  | stopCalled
  | deployDeleted
  | restoreDone
  | startCalled
deriving DecidableEq, Repr

/-- `rollback` (STEP 10).  Returns `False` immediately when no backup path is
given or the path does not exist; otherwise calls `stop_application` ignoring
its result, runs the remove-then-copy restore command, and on restore success
starts the restored version; `True` only when restore and start both
succeeded.  When the restore command fails we take the worst case for the
deployment location (the `rm -rf` ran, the `cp -r` did not). -/
def rollback (backup_path : Option String) (env : RbEnv) (fs : FsState) :
    Bool × FsState × List RbAction :=
  match backup_path with
  | none => (false, fs, [])
  | some p =>
      match fs.backupStore.lookup p with
      | none => (false, fs, [])
      | some c =>
          let _ignored :=
            stop_application env.stopTermOk env.stopStillRunning env.stopKillOk
          if env.restoreOk then
            let fs2 : FsState := { fs with deployContents := some c }
            if start_application env.startScriptExists env.startCmdOk then
              (true, fs2,
               [RbAction.stopCalled, RbAction.deployDeleted,
                RbAction.restoreDone, RbAction.startCalled])
            else
              (false, fs2,
               [RbAction.stopCalled, RbAction.deployDeleted,
                RbAction.restoreDone, RbAction.startCalled])
          else
            (false, { fs with deployContents := none },
             [RbAction.stopCalled, RbAction.deployDeleted])

/-- The notification payload built by `send_notification` (STEP 11). -/
structure Notification where
  status : String
  appName : String
  version : String
  timestamp : String
  message : String
deriving DecidableEq, Repr

/-- `send_notification` (STEP 11): builds the payload carrying status,
`APP_NAME`, `APP_VERSION`, the current time, and the message. -/
def send_notification (status message now : String) : Notification :=
  { status := status, appName := APP_NAME, version := APP_VERSION,
    timestamp := now, message := message }

/-- The point at which a `KeyboardInterrupt` or unexpected exception fires
inside `main`'s `try` block (both handlers behave identically: roll back when
a backup path is recorded, then return 1).  `iNone` means the run is not
interrupted. -/
inductive IPt where
  | iNone
  | atCheck
  | atBackup
  | atStop
  | atDeploy
  | atStart
  | atHealth
deriving DecidableEq, Repr

/-- Trace of the calls `main` makes, each with its result.  `evRollback`
carries the action trace of the `rollback` call. -/
inductive Ev where
  | evCheck (running : Bool)
  | evBackup (result : Option String)
  | evStop (ok : Bool)
  | evDeploy (ok : Bool)
  | evStart (ok : Bool)
  | evHealth (healthy : Bool)
  | evRollback (ok : Bool) (acts : List RbAction)
  | evNotify (n : Notification)
deriving DecidableEq, Repr

/-- Whether an event is the emission of a notification. -/
def Ev.isNotify : Ev → Bool
  | Ev.evNotify _ => true
  | _ => false

/-- All oracle inputs consumed by one run of `main`. -/
structure Env where
  pgrepExit : Int
  timestamp : String
  backupCmdOk : Bool
  stopTermOk : Bool
  stopStillRunning : Bool
  stopKillOk : Bool
  sourceExists : Bool
  mkdirOk : Bool
  cpOk : Bool
  chmodOk : Bool
  sourceContents : Content
  startScriptExists : Bool
  startCmdOk : Bool
  probe : Nat → Bool
  rb : RbEnv
  interrupt : IPt

/-- The result of one run of `main`: the process exit code, the trace of
calls made, and the final filesystem state. -/
structure RunResult where
  exitCode : Nat
  events : List Ev
  fs : FsState
deriving DecidableEq, Repr

/-- The `except` handlers of `main` (KeyboardInterrupt and the generic
handler behave the same): if `backup_path` is set, roll back, then return
exit code 1.  No notification is sent. -/
def handle_exn (bp : Option String) (env : Env) (fs : FsState)
    (evs : List Ev) : RunResult :=
  match bp with
  | none => { exitCode := 1, events := evs, fs := fs }
  | some p =>
      let r := rollback (some p) env.rb fs
      { exitCode := 1, events := evs ++ [Ev.evRollback r.1 r.2.2], fs := r.2.1 }

/-- The `backup_path` local of `main` after Steps 1 and 2: `None` unless the
app was running and `backup_current_version` succeeded. -/
def main_backup_path (env : Env) (fs0 : FsState) : Option String :=
  if check_app_running env.pgrepExit then
    (backup_current_version env.timestamp env.backupCmdOk fs0).1
  else none

/-- The filesystem after Steps 1 and 2 of `main` (the backup, if taken). -/
def main_fs_after_backup (env : Env) (fs0 : FsState) : FsState :=
  if check_app_running env.pgrepExit then
    (backup_current_version env.timestamp env.backupCmdOk fs0).2
  else fs0

/-- The stop step of `main`: only run when the app was found running; a
skipped stop does not abort the run, encoded as success. -/
def stop_result (env : Env) : Bool :=
  if check_app_running env.pgrepExit then
    (stop_application env.stopTermOk env.stopStillRunning env.stopKillOk).1
  else true

/-- The deploy step of `main`, applied to the filesystem after the backup. -/
def dep_result (env : Env) (fs0 : FsState) : Bool × FsState :=
  deploy_new_version env.sourceExists env.mkdirOk env.cpOk env.chmodOk
    env.sourceContents (main_fs_after_backup env fs0)

/-- The start step of `main`. -/
def start_result (env : Env) : Bool :=
  start_application env.startScriptExists env.startCmdOk

/-- The health-check step of `main` (the script uses 12 attempts). -/
def health_result (env : Env) : Bool := (health_check env.probe 12).1

/-- Events recorded after Step 1 (status check). -/
def evs_check (env : Env) : List Ev :=
  [Ev.evCheck (check_app_running env.pgrepExit)]

/-- Events recorded after Step 2 (backup, only when running). -/
def evs_backup (env : Env) (fs0 : FsState) : List Ev :=
  evs_check env ++
    (if check_app_running env.pgrepExit then
      [Ev.evBackup (main_backup_path env fs0)] else [])

/-- Events recorded after Step 3 (stop, only when running). -/
def evs_stop (env : Env) (fs0 : FsState) : List Ev :=
  evs_backup env fs0 ++
    (if check_app_running env.pgrepExit then [Ev.evStop (stop_result env)] else [])

/-- Events recorded after Step 4 (deploy). -/
def evs_deploy (env : Env) (fs0 : FsState) : List Ev :=
  evs_stop env fs0 ++ [Ev.evDeploy (dep_result env fs0).1]

/-- Events recorded after Step 5 (start). -/
def evs_start (env : Env) (fs0 : FsState) : List Ev :=
  evs_deploy env fs0 ++ [Ev.evStart (start_result env)]

/-- Events recorded after Step 6 (health check). -/
def evs_health (env : Env) (fs0 : FsState) : List Ev :=
  evs_start env fs0 ++ [Ev.evHealth (health_result env)]

/-- `main` (STEP 12).  Steps: check status; backup if running (failure logged,
run continues); stop if running (failure aborts with 1); deploy (failure
aborts with 1); start (failure rolls back if a backup exists, returns 1, no
notification); health check (failure rolls back and notifies if a backup
exists, returns 1); on success notifies and returns 0.  An interrupt or
unexpected exception at any point is routed to `handle_exn` with the
`backup_path` assigned so far. -/
def main_run (env : Env) (fs0 : FsState) : RunResult :=
  if env.interrupt = IPt.atCheck then handle_exn none env fs0 [] else
  if env.interrupt = IPt.atBackup then handle_exn none env fs0 (evs_check env) else
  if env.interrupt = IPt.atStop then
    handle_exn (main_backup_path env fs0) env (main_fs_after_backup env fs0)
      (evs_backup env fs0) else
  if stop_result env = false then
    { exitCode := 1, events := evs_stop env fs0, fs := main_fs_after_backup env fs0 } else
  if env.interrupt = IPt.atDeploy then
    handle_exn (main_backup_path env fs0) env (main_fs_after_backup env fs0)
      (evs_stop env fs0) else
  if (dep_result env fs0).1 = false then
    { exitCode := 1, events := evs_deploy env fs0, fs := (dep_result env fs0).2 } else
  if env.interrupt = IPt.atStart then
    handle_exn (main_backup_path env fs0) env (dep_result env fs0).2
      (evs_deploy env fs0) else
  if start_result env = false then
    (match main_backup_path env fs0 with
     | some p =>
        let r := rollback (some p) env.rb (dep_result env fs0).2
        { exitCode := 1, events := evs_start env fs0 ++ [Ev.evRollback r.1 r.2.2],
          fs := r.2.1 }
     | none =>
        { exitCode := 1, events := evs_start env fs0, fs := (dep_result env fs0).2 }) else
  if env.interrupt = IPt.atHealth then
    handle_exn (main_backup_path env fs0) env (dep_result env fs0).2
      (evs_start env fs0) else
  if health_result env = false then
    (match main_backup_path env fs0 with
     | some p =>
        let r := rollback (some p) env.rb (dep_result env fs0).2
        { exitCode := 1,
          events := evs_health env fs0 ++
            [Ev.evRollback r.1 r.2.2,
             Ev.evNotify (send_notification "failure"
               "Deployment failed health check, rolled back" env.timestamp)],
          fs := r.2.1 }
     | none =>
        { exitCode := 1, events := evs_health env fs0, fs := (dep_result env fs0).2 })
  else
    { exitCode := 0,
      events := evs_health env fs0 ++
        [Ev.evNotify (send_notification "success"
          "Deployment completed" env.timestamp)],
      fs := (dep_result env fs0).2 }

/-- A concrete filesystem with a deployed v1 artifact and no backups yet,
used to instantiate theorems at concrete inputs. -/
def fsEx : FsState := { deployContents := some [("app", "v1")], backupStore := [] }

/-- The backup path produced for timestamp "t". -/
def backupPathEx : String := BACKUP_DIR ++ "/" ++ APP_NAME ++ "_" ++ "t"

/-- The filesystem after backing up `fsEx` at timestamp "t". -/
def fsExAfterBackup : FsState := (backup_current_version "t" true fsEx).2

/-- The filesystem after then deploying a v2 artifact over it. -/
def fsExMid : FsState :=
  (deploy_new_version true true true true [("app", "v2")] fsExAfterBackup).2

/-- A concrete rollback oracle where restore and start both succeed. -/
def rbEnvEx : RbEnv :=
  { stopTermOk := true, stopStillRunning := false, stopKillOk := true,
    restoreOk := true, startScriptExists := true, startCmdOk := true }

/-- A concrete run oracle in which the app is not running and the source
directory is missing, so the deploy step fails. -/
def envDeployFail : Env :=
  { pgrepExit := 1, timestamp := "t", backupCmdOk := true,
    stopTermOk := true, stopStillRunning := false, stopKillOk := true,
    sourceExists := false, mkdirOk := true, cpOk := true, chmodOk := true,
    sourceContents := [], startScriptExists := true, startCmdOk := true,
    probe := fun _ => true, rb := rbEnvEx, interrupt := IPt.iNone }

/-- A concrete run oracle in which the app is running, every step up to the
health check succeeds, and the health check passes on the first attempt. -/
def envSuccess : Env :=
  { pgrepExit := 0, timestamp := "t", backupCmdOk := true,
    stopTermOk := true, stopStillRunning := false, stopKillOk := true,
    sourceExists := true, mkdirOk := true, cpOk := true, chmodOk := true,
    sourceContents := [("app", "v2")], startScriptExists := true,
    startCmdOk := true, probe := fun _ => true, rb := rbEnvEx,
    interrupt := IPt.iNone }

/-- A concrete run oracle in which the app is running, the backup command
fails (so no backup exists), and the health check never passes. -/
def envNoBackupHealthFail : Env :=
  { pgrepExit := 0, timestamp := "t", backupCmdOk := false,
    stopTermOk := true, stopStillRunning := false, stopKillOk := true,
    sourceExists := true, mkdirOk := true, cpOk := true, chmodOk := true,
    sourceContents := [("app", "v2")], startScriptExists := true,
    startCmdOk := true, probe := fun _ => false, rb := rbEnvEx,
    interrupt := IPt.iNone }

/-! ## Theorems -/

/-- C7: a target that ignores graceful termination (SIGTERM command succeeds
but the app is still running after the grace period) and dies to a successful
forced-kill command makes `stop_application` wait the force delay and report
success, with no re-check of `check_app_running` after the kill. -/
theorem c7_forced_kill_reports_success :
    stop_application true true true =
      (true, [StopEvent.sigtermCmd true, StopEvent.sleepGrace,
              StopEvent.recheck true, StopEvent.sigkillCmd true,
              StopEvent.sleepForce]) := rfl

/-- C10: when no matching process exists both `pkill` commands fail, and
`stop_application` returns failure with the grace-period sleep and the
`check_app_running` re-check skipped (the trace holds only the two failed
signal commands), whatever the re-check would have returned. -/
theorem c10_stop_without_matching_process (r : Bool) :
    stop_application false r false =
      (false, [StopEvent.sigtermCmd false, StopEvent.sigkillCmd false]) := rfl

/-- C9 counterexample: `run_command` does not distinguish the three failure
kinds in its result — a timeout, a launch failure and a non-zero exit all
return the very same value `false`. -/
theorem c9_run_command_counterexample :
    run_command CmdOutcome.timedOut =
      run_command (CmdOutcome.launchFailed "not found") ∧
    run_command CmdOutcome.timedOut = run_command (CmdOutcome.exited 1) ∧
    run_command CmdOutcome.timedOut = false := ⟨rfl, rfl, rfl⟩

/-- C9 amended: `run_command` collapses launch failure, timeout and non-zero
exit into the single returned value `false`; the three kinds are told apart
only by the log line printed, where they are pairwise distinct. -/
theorem c9_run_command_amended (code : Int) (msg : String) (hc : code ≠ 0) :
    run_command (CmdOutcome.exited code) = false ∧
    run_command CmdOutcome.timedOut = false ∧
    run_command (CmdOutcome.launchFailed msg) = false ∧
    run_command_log (CmdOutcome.exited code) ≠
      run_command_log CmdOutcome.timedOut ∧
    run_command_log (CmdOutcome.exited code) ≠
      run_command_log (CmdOutcome.launchFailed msg) ∧
    run_command_log CmdOutcome.timedOut ≠
      run_command_log (CmdOutcome.launchFailed msg) := by
  refine ⟨?_, rfl, rfl, ?_, ?_, ?_⟩ <;>
    simp [run_command, run_command_log, hc]

/-- Witness for C9 amended at `code = 1`, `msg = "x"`. -/
theorem c9_run_command_amended_witness :
    run_command (CmdOutcome.exited 1) = false ∧
    run_command CmdOutcome.timedOut = false ∧
    run_command (CmdOutcome.launchFailed "x") = false ∧
    run_command_log (CmdOutcome.exited 1) ≠
      run_command_log CmdOutcome.timedOut ∧
    run_command_log (CmdOutcome.exited 1) ≠
      run_command_log (CmdOutcome.launchFailed "x") ∧
    run_command_log CmdOutcome.timedOut ≠
      run_command_log (CmdOutcome.launchFailed "x") :=
  c9_run_command_amended 1 "x" (by decide)

/-- The health-check loop, when every probe fails, runs its remaining
`d` attempts and sleeps between consecutive ones (`d - 1` sleeps). -/
theorem health_check_go_all_fail (probe : Nat → Bool) (N : Nat)
    (hall : ∀ i, probe i = false) :
    ∀ d a, a + d = N + 1 → health_check_go probe N a d = (false, d, d - 1) := by
  intro d
  induction d with
  | zero => intro a _; rfl
  | succ d ih =>
      intro a ha
      have hrec := ih (a + 1) (by omega)
      simp only [health_check_go, hall a, Bool.false_eq_true, if_false, hrec]
      by_cases hlt : a < N
      · simp only [hlt, if_true]
        refine Prod.ext rfl (Prod.ext rfl ?_)
        simp only []
        omega
      · have hd : d = 0 := by omega
        simp [hlt, hd]

/-- The health-check loop, started at attempt `a` with the first success at
attempt `a + d` (every earlier attempt failing), short-circuits after `d + 1`
probe calls and `d` sleeps. -/
theorem health_check_go_first_success (probe : Nat → Bool) (N k : Nat)
    (hkN : k ≤ N) (hk : probe k = true) :
    ∀ d a, a + d = k →
      (∀ i, a ≤ i → i < k → probe i = false) →
      health_check_go probe N a (N + 1 - a) = (true, d + 1, d) := by
  intro d
  induction d with
  | zero =>
      intro a ha _
      have hak : a = k := by omega
      subst hak
      have h1 : N + 1 - a = (N - a) + 1 := by omega
      rw [h1]
      simp [health_check_go, hk]
  | succ d ih =>
      intro a ha hfail
      have h1 : N + 1 - a = (N - a) + 1 := by omega
      have h2 : N + 1 - (a + 1) = N - a := by omega
      have hrec := ih (a + 1) (by omega) (fun i hi hik => hfail i (by omega) hik)
      rw [h2] at hrec
      rw [h1]
      have hpa : probe a = false := hfail a (by omega) (by omega)
      have hlt : a < N := by omega
      simp [health_check_go, hpa, hrec, hlt]

/-- C4: the Health Prober with `maxAttempts = N` returns `Unhealthy` after
exactly `N` probe calls and `N - 1` interval sleeps when every probe fails,
and short-circuits to `Healthy` after exactly `k` calls and `k - 1` sleeps
when the probe first succeeds on attempt `k ≤ N`. -/
theorem c4_health_check_counts (probe : Nat → Bool) (N k : Nat) :
    ((∀ i, probe i = false) → health_check probe N = (false, N, N - 1)) ∧
    (1 ≤ k → k ≤ N → probe k = true →
      (∀ i, 1 ≤ i → i < k → probe i = false) →
      health_check probe N = (true, k, k - 1)) := by
  constructor
  · intro hall
    have h := health_check_go_all_fail probe N hall N 1 (by omega)
    simpa [health_check] using h
  · intro hk1 hkN hk hfail
    have h := health_check_go_first_success probe N k hkN hk (k - 1) 1
      (by omega) (fun i hi hik => hfail i hi hik)
    have e1 : N + 1 - 1 = N := by omega
    have e2 : k - 1 + 1 = k := by omega
    rw [e1, e2] at h
    simpa [health_check] using h

/-- Witness for C4: an always-failing probe with 5 attempts gives Unhealthy
after 5 calls and 4 sleeps; a probe first succeeding on attempt 3 of 3 gives
Healthy after 3 calls and 2 sleeps. -/
theorem c4_health_check_counts_witness :
    health_check (fun _ => false) 5 = (false, 5, 4) ∧
    health_check (fun i => decide (3 ≤ i)) 3 = (true, 3, 2) := by
  constructor
  · exact (c4_health_check_counts (fun _ => false) 5 1).1 (fun i => rfl)
  · refine (c4_health_check_counts (fun i => decide (3 ≤ i)) 3 3).2
      (by omega) (by omega) (by decide) ?_
    intro i h1 h2
    show decide (3 ≤ i) = false
    simp only [decide_eq_false_iff_not]
    omega

/-- A successful backup records the prior deployment contents in the backup
store under the returned path (and the deployment location must have
existed). -/
theorem backup_some_spec (ts : String) (ok : Bool) (fs fs1 : FsState)
    (p : String) (h : backup_current_version ts ok fs = (some p, fs1)) :
    ∃ c, fs.deployContents = some c ∧ fs1.backupStore.lookup p = some c := by
  unfold backup_current_version at h
  cases hd : fs.deployContents with
  | none => rw [hd] at h; simp at h
  | some c =>
      rw [hd] at h
      cases hok : ok with
      | false => rw [hok] at h; simp at h
      | true =>
          rw [hok] at h
          simp only [if_true] at h
          obtain ⟨hp, hfs⟩ := Prod.mk.injEq .. ▸ h
          refine ⟨c, rfl, ?_⟩
          rw [← hfs]
          simp only [Option.some.injEq] at hp
          simp [List.lookup, hp]

/-- The exception handler always returns exit code 1. -/
theorem handle_exn_exit (bp : Option String) (env : Env) (fs : FsState)
    (evs : List Ev) : (handle_exn bp env fs evs).exitCode = 1 := by
  unfold handle_exn; cases bp <;> rfl

/-- `handle_exn` with no backup path records nothing new and returns 1. -/
theorem handle_exn_none_eq (env : Env) (fs : FsState) (evs : List Ev) :
    handle_exn none env fs evs = { exitCode := 1, events := evs, fs := fs } := rfl

/-- `handle_exn` with a backup path rolls back and records that. -/
theorem handle_exn_some_eq (p : String) (env : Env) (fs : FsState)
    (evs : List Ev) :
    handle_exn (some p) env fs evs =
      { exitCode := 1,
        events := evs ++ [Ev.evRollback (rollback (some p) env.rb fs).1
          (rollback (some p) env.rb fs).2.2],
        fs := (rollback (some p) env.rb fs).2.1 } := rfl

/-- Every event in the handler result was already recorded or is the
rollback event the handler itself adds. -/
theorem handle_exn_mem (bp : Option String) (env : Env) (fs : FsState)
    (evs : List Ev) (e : Ev) (he : e ∈ (handle_exn bp env fs evs).events) :
    e ∈ evs ∨ ∃ ok acts, e = Ev.evRollback ok acts := by
  cases bp with
  | none => exact Or.inl he
  | some p =>
      rw [handle_exn_some_eq] at he
      rcases List.mem_append.mp he with h | h
      · exact Or.inl h
      · rw [List.mem_singleton] at h
        exact Or.inr ⟨_, _, h⟩

/-- Complete enumeration of the outcomes of `main_run`: each disjunct names
the branch taken, its guard, and the exact result. -/
theorem main_run_shape (env : Env) (fs0 : FsState) :
    (env.interrupt = IPt.atCheck ∧
      main_run env fs0 = handle_exn none env fs0 []) ∨
    (env.interrupt = IPt.atBackup ∧
      main_run env fs0 = handle_exn none env fs0 (evs_check env)) ∨
    (env.interrupt = IPt.atStop ∧
      main_run env fs0 = handle_exn (main_backup_path env fs0) env
        (main_fs_after_backup env fs0) (evs_backup env fs0)) ∨
    (stop_result env = false ∧
      main_run env fs0 =
        ⟨1, evs_stop env fs0, main_fs_after_backup env fs0⟩) ∨
    (env.interrupt = IPt.atDeploy ∧
      main_run env fs0 = handle_exn (main_backup_path env fs0) env
        (main_fs_after_backup env fs0) (evs_stop env fs0)) ∨
    ((dep_result env fs0).1 = false ∧
      main_run env fs0 =
        ⟨1, evs_deploy env fs0, (dep_result env fs0).2⟩) ∨
    (env.interrupt = IPt.atStart ∧
      main_run env fs0 = handle_exn (main_backup_path env fs0) env
        (dep_result env fs0).2 (evs_deploy env fs0)) ∨
    (start_result env = false ∧ ∃ p, main_backup_path env fs0 = some p ∧
      main_run env fs0 =
        ⟨1, evs_start env fs0 ++
          [Ev.evRollback (rollback (some p) env.rb (dep_result env fs0).2).1
            (rollback (some p) env.rb (dep_result env fs0).2).2.2],
          (rollback (some p) env.rb (dep_result env fs0).2).2.1⟩) ∨
    (start_result env = false ∧ main_backup_path env fs0 = none ∧
      main_run env fs0 =
        ⟨1, evs_start env fs0, (dep_result env fs0).2⟩) ∨
    (env.interrupt = IPt.atHealth ∧
      main_run env fs0 = handle_exn (main_backup_path env fs0) env
        (dep_result env fs0).2 (evs_start env fs0)) ∨
    (health_result env = false ∧ ∃ p, main_backup_path env fs0 = some p ∧
      main_run env fs0 =
        ⟨1, evs_health env fs0 ++
          [Ev.evRollback (rollback (some p) env.rb (dep_result env fs0).2).1
            (rollback (some p) env.rb (dep_result env fs0).2).2.2,
           Ev.evNotify (send_notification "failure"
             "Deployment failed health check, rolled back" env.timestamp)],
          (rollback (some p) env.rb (dep_result env fs0).2).2.1⟩) ∨
    (health_result env = false ∧ main_backup_path env fs0 = none ∧
      main_run env fs0 =
        ⟨1, evs_health env fs0, (dep_result env fs0).2⟩) ∨
    (health_result env = true ∧
      main_run env fs0 =
        ⟨0, evs_health env fs0 ++
          [Ev.evNotify (send_notification "success"
            "Deployment completed" env.timestamp)],
          (dep_result env fs0).2⟩) := by
  by_cases h1 : env.interrupt = IPt.atCheck
  · refine Or.inl ⟨h1, ?_⟩
    rw [main_run, if_pos h1]
  by_cases h2 : env.interrupt = IPt.atBackup
  · refine Or.inr (Or.inl ⟨h2, ?_⟩)
    rw [main_run, if_neg h1, if_pos h2]
  by_cases h3 : env.interrupt = IPt.atStop
  · refine Or.inr (Or.inr (Or.inl ⟨h3, ?_⟩))
    rw [main_run, if_neg h1, if_neg h2, if_pos h3]
  by_cases h4 : stop_result env = false
  · refine Or.inr (Or.inr (Or.inr (Or.inl ⟨h4, ?_⟩)))
    rw [main_run, if_neg h1, if_neg h2, if_neg h3, if_pos h4]
  by_cases h5 : env.interrupt = IPt.atDeploy
  · refine Or.inr (Or.inr (Or.inr (Or.inr (Or.inl ⟨h5, ?_⟩))))
    rw [main_run, if_neg h1, if_neg h2, if_neg h3, if_neg h4, if_pos h5]
  by_cases h6 : (dep_result env fs0).1 = false
  · refine Or.inr (Or.inr (Or.inr (Or.inr (Or.inr (Or.inl ⟨h6, ?_⟩)))))
    rw [main_run, if_neg h1, if_neg h2, if_neg h3, if_neg h4, if_neg h5,
      if_pos h6]
  by_cases h7 : env.interrupt = IPt.atStart
  · refine Or.inr (Or.inr (Or.inr (Or.inr (Or.inr (Or.inr (Or.inl ⟨h7, ?_⟩))))))
    rw [main_run, if_neg h1, if_neg h2, if_neg h3, if_neg h4, if_neg h5,
      if_neg h6, if_pos h7]
  by_cases h8 : start_result env = false
  · cases hbp : main_backup_path env fs0 with
    | some p =>
        refine Or.inr (Or.inr (Or.inr (Or.inr (Or.inr (Or.inr (Or.inr
          (Or.inl ⟨h8, p, rfl, ?_⟩)))))))
        rw [main_run, if_neg h1, if_neg h2, if_neg h3, if_neg h4, if_neg h5,
          if_neg h6, if_neg h7, if_pos h8, hbp]
    | none =>
        refine Or.inr (Or.inr (Or.inr (Or.inr (Or.inr (Or.inr (Or.inr
          (Or.inr (Or.inl ⟨h8, rfl, ?_⟩))))))))
        rw [main_run, if_neg h1, if_neg h2, if_neg h3, if_neg h4, if_neg h5,
          if_neg h6, if_neg h7, if_pos h8, hbp]
  by_cases h9 : env.interrupt = IPt.atHealth
  · refine Or.inr (Or.inr (Or.inr (Or.inr (Or.inr (Or.inr (Or.inr (Or.inr
      (Or.inr (Or.inl ⟨h9, ?_⟩)))))))))
    rw [main_run, if_neg h1, if_neg h2, if_neg h3, if_neg h4, if_neg h5,
      if_neg h6, if_neg h7, if_neg h8, if_pos h9]
  by_cases h10 : health_result env = false
  · cases hbp : main_backup_path env fs0 with
    | some p =>
        refine Or.inr (Or.inr (Or.inr (Or.inr (Or.inr (Or.inr (Or.inr (Or.inr
          (Or.inr (Or.inr (Or.inl ⟨h10, p, rfl, ?_⟩))))))))))
        rw [main_run, if_neg h1, if_neg h2, if_neg h3, if_neg h4, if_neg h5,
          if_neg h6, if_neg h7, if_neg h8, if_neg h9, if_pos h10, hbp]
    | none =>
        refine Or.inr (Or.inr (Or.inr (Or.inr (Or.inr (Or.inr (Or.inr (Or.inr
          (Or.inr (Or.inr (Or.inr (Or.inl ⟨h10, rfl, ?_⟩)))))))))))
        rw [main_run, if_neg h1, if_neg h2, if_neg h3, if_neg h4, if_neg h5,
          if_neg h6, if_neg h7, if_neg h8, if_neg h9, if_pos h10, hbp]
  · have h10t : health_result env = true := by
      revert h10; cases health_result env <;> simp
    refine Or.inr (Or.inr (Or.inr (Or.inr (Or.inr (Or.inr (Or.inr (Or.inr
      (Or.inr (Or.inr (Or.inr (Or.inr ⟨h10t, ?_⟩)))))))))))
    rw [main_run, if_neg h1, if_neg h2, if_neg h3, if_neg h4, if_neg h5,
      if_neg h6, if_neg h7, if_neg h8, if_neg h9, if_neg h10]

/-- No health, rollback or notify event is ever recorded before the
corresponding step runs; and when the app was not running, no backup or stop
event is recorded at all. -/
theorem not_mem_prefix_facts (env : Env) (fs0 : FsState) :
    (∀ b, Ev.evHealth b ∉ evs_start env fs0) ∧
    (∀ ok acts, Ev.evRollback ok acts ∉ evs_health env fs0) ∧
    (∀ n, Ev.evNotify n ∉ evs_health env fs0) ∧
    (check_app_running env.pgrepExit = false →
      (∀ r, Ev.evBackup r ∉ evs_health env fs0) ∧
      (∀ b, Ev.evStop b ∉ evs_health env fs0)) := by
  refine ⟨?_, ?_, ?_, ?_⟩
  · intro b
    unfold evs_start evs_deploy evs_stop evs_backup evs_check
    cases hR : check_app_running env.pgrepExit <;> simp [hR]
  · intro ok acts
    unfold evs_health evs_start evs_deploy evs_stop evs_backup evs_check
    cases hR : check_app_running env.pgrepExit <;> simp [hR]
  · intro n
    unfold evs_health evs_start evs_deploy evs_stop evs_backup evs_check
    cases hR : check_app_running env.pgrepExit <;> simp [hR]
  · intro hR
    constructor
    · intro r
      unfold evs_health evs_start evs_deploy evs_stop evs_backup evs_check
      simp [hR]
    · intro b
      unfold evs_health evs_start evs_deploy evs_stop evs_backup evs_check
      simp [hR]

/-- The recorded event lists grow along the run. -/
theorem mem_evs_mono (env : Env) (fs0 : FsState) (e : Ev) :
    (e ∈ evs_check env → e ∈ evs_start env fs0) ∧
    (e ∈ evs_backup env fs0 → e ∈ evs_start env fs0) ∧
    (e ∈ evs_stop env fs0 → e ∈ evs_start env fs0) ∧
    (e ∈ evs_deploy env fs0 → e ∈ evs_start env fs0) ∧
    (e ∈ evs_start env fs0 → e ∈ evs_health env fs0) := by
  refine ⟨?_, ?_, ?_, ?_, ?_⟩ <;> intro h
  · unfold evs_start evs_deploy evs_stop evs_backup
    exact List.mem_append_left _ (List.mem_append_left _
      (List.mem_append_left _ (List.mem_append_left _ h)))
  · unfold evs_start evs_deploy evs_stop
    exact List.mem_append_left _ (List.mem_append_left _
      (List.mem_append_left _ h))
  · unfold evs_start evs_deploy
    exact List.mem_append_left _ (List.mem_append_left _ h)
  · unfold evs_start
    exact List.mem_append_left _ h
  · unfold evs_health
    exact List.mem_append_left _ h

/-- A health event is recorded exactly for the health check's result. -/
theorem evHealth_mem_iff (env : Env) (fs0 : FsState) (b : Bool) :
    Ev.evHealth b ∈ evs_health env fs0 ↔ b = health_result env := by
  unfold evs_health
  rw [List.mem_append, List.mem_singleton]
  constructor
  · rintro (h | h)
    · exact absurd h ((not_mem_prefix_facts env fs0).1 b)
    · exact (Ev.evHealth.injEq ..).mp h
  · intro h
    exact Or.inr (by rw [h])

/-- No health event occurs in any prefix before the health check. -/
theorem no_health_in_prefixes (env : Env) (fs0 : FsState) (b : Bool) :
    Ev.evHealth b ∉ evs_check env ∧
    Ev.evHealth b ∉ evs_backup env fs0 ∧
    Ev.evHealth b ∉ evs_stop env fs0 ∧
    Ev.evHealth b ∉ evs_deploy env fs0 ∧
    Ev.evHealth b ∉ evs_start env fs0 := by
  have h := (not_mem_prefix_facts env fs0).1 b
  have hm := mem_evs_mono env fs0 (Ev.evHealth b)
  exact ⟨fun hh => h (hm.1 hh), fun hh => h (hm.2.1 hh),
         fun hh => h (hm.2.2.1 hh), fun hh => h (hm.2.2.2.1 hh), h⟩

/-- No rollback event occurs in any recorded prefix (rollback events are only
appended by the rollback branches themselves). -/
theorem no_rollback_in_prefixes (env : Env) (fs0 : FsState) (ok : Bool)
    (acts : List RbAction) :
    Ev.evRollback ok acts ∉ evs_check env ∧
    Ev.evRollback ok acts ∉ evs_backup env fs0 ∧
    Ev.evRollback ok acts ∉ evs_stop env fs0 ∧
    Ev.evRollback ok acts ∉ evs_deploy env fs0 ∧
    Ev.evRollback ok acts ∉ evs_start env fs0 ∧
    Ev.evRollback ok acts ∉ evs_health env fs0 := by
  have h := (not_mem_prefix_facts env fs0).2.1 ok acts
  have hm := mem_evs_mono env fs0 (Ev.evRollback ok acts)
  exact ⟨fun hh => h (hm.2.2.2.2 (hm.1 hh)), fun hh => h (hm.2.2.2.2 (hm.2.1 hh)),
         fun hh => h (hm.2.2.2.2 (hm.2.2.1 hh)),
         fun hh => h (hm.2.2.2.2 (hm.2.2.2.1 hh)),
         fun hh => h (hm.2.2.2.2 hh), h⟩

/-- No health event appears in a handler result built from a health-free
prefix. -/
theorem handle_exn_no_health (bp : Option String) (env : Env) (fs : FsState)
    (evs : List Ev) (b : Bool) (h : Ev.evHealth b ∉ evs) :
    Ev.evHealth b ∉ (handle_exn bp env fs evs).events := by
  intro hmem
  rcases handle_exn_mem bp env fs evs _ hmem with h' | ⟨ok, acts, h'⟩
  · exact h h'
  · simp at h'

/-- The notification events of the handler result are those of its prefix. -/
theorem handle_exn_filter_notify (bp : Option String) (env : Env)
    (fs : FsState) (evs : List Ev) :
    ((handle_exn bp env fs evs).events).filter Ev.isNotify =
      evs.filter Ev.isNotify := by
  cases bp with
  | none => rfl
  | some p =>
      rw [handle_exn_some_eq]
      simp [Ev.isNotify]

/-- No recorded prefix contains a notification. -/
theorem filter_notify_before_done (env : Env) (fs0 : FsState) :
    ((evs_check env).filter Ev.isNotify = []) ∧
    ((evs_backup env fs0).filter Ev.isNotify = []) ∧
    ((evs_stop env fs0).filter Ev.isNotify = []) ∧
    ((evs_deploy env fs0).filter Ev.isNotify = []) ∧
    ((evs_start env fs0).filter Ev.isNotify = []) ∧
    ((evs_health env fs0).filter Ev.isNotify = []) := by
  unfold evs_health evs_start evs_deploy evs_stop evs_backup evs_check
  cases hR : check_app_running env.pgrepExit <;> simp [hR, Ev.isNotify]

/-- A recorded backup path implies a successful backup whose stored contents
are the prior deployment contents. -/
theorem main_backup_path_some (env : Env) (fs0 : FsState) (p : String)
    (h : main_backup_path env fs0 = some p) :
    ∃ c, fs0.deployContents = some c ∧
      (main_fs_after_backup env fs0).backupStore.lookup p = some c := by
  unfold main_backup_path at h
  unfold main_fs_after_backup
  cases hR : check_app_running env.pgrepExit with
  | false => rw [hR] at h; simp at h
  | true =>
      rw [hR] at h
      simp only [if_true] at h ⊢
      have hpair : backup_current_version env.timestamp env.backupCmdOk fs0 =
          (some p, (backup_current_version env.timestamp env.backupCmdOk fs0).2) := by
        rw [← h]
      exact backup_some_spec env.timestamp env.backupCmdOk fs0 _ p hpair

/-- C3: a state captured by a successful `backup_current_version` is restored
exactly by a later `rollback` whose restore command succeeds, whatever the
deployment location holds by then (`fsMid` only has to still hold the backup
entry); and `deploy_new_version` never touches the backup store, so the
deploys in between do preserve that entry. -/
theorem c3_backup_rollback_roundtrip (ts p : String) (fs0 fs1 : FsState)
    (hb : backup_current_version ts true fs0 = (some p, fs1))
    (fsMid : FsState)
    (hkeep : fsMid.backupStore.lookup p = fs1.backupStore.lookup p)
    (env : RbEnv) (hrestore : env.restoreOk = true) :
    ((rollback (some p) env fsMid).2.1).deployContents = fs0.deployContents ∧
    (∀ se mk cp ch (src : Content) (fsX : FsState),
      ((deploy_new_version se mk cp ch src fsX).2).backupStore =
        fsX.backupStore) := by
  constructor
  · obtain ⟨c, hdc, hlk⟩ := backup_some_spec ts true fs0 fs1 p hb
    rw [hdc]
    simp only [rollback]
    rw [hkeep, hlk]
    by_cases hs : start_application env.startScriptExists env.startCmdOk = true <;>
      simp [hrestore, hs]
  · intro se mk cp ch src fsX
    unfold deploy_new_version
    by_cases h1 : se = false <;> by_cases h2 : mk = false <;>
      by_cases h3 : cp = false <;> by_cases h4 : ch = false <;>
        simp [h1, h2, h3, h4]

/-- Witness for C3, with a concrete v1 artifact backed up at timestamp "t",
a v2 artifact deployed over it, and a successful rollback. -/
theorem c3_backup_rollback_roundtrip_witness :
    ((rollback (some backupPathEx) rbEnvEx fsExMid).2.1).deployContents =
      fsEx.deployContents :=
  (c3_backup_rollback_roundtrip "t" backupPathEx fsEx fsExAfterBackup
    (by decide) fsExMid (by decide) rbEnvEx rfl).1

/-- C5: with an existing backup, `rollback` takes its actions in the order
stop (result ignored), then the destructive restore, then (only when restore
succeeded) start; its result — the `rolledBack` flag `main` reports — is true
exactly when restore and start both succeeded; and every `main` run that
invoked `rollback` exits with code 1 (the outcome is always a failure). -/
theorem c5_rollingback_path (p : String) (c : Content) (env : RbEnv)
    (fs : FsState) (hfound : fs.backupStore.lookup p = some c)
    (menv : Env) (mfs : FsState) :
    ((rollback (some p) env fs).2.2 =
      if env.restoreOk then
        [RbAction.stopCalled, RbAction.deployDeleted,
         RbAction.restoreDone, RbAction.startCalled]
      else [RbAction.stopCalled, RbAction.deployDeleted]) ∧
    ((rollback (some p) env fs).1 = (env.restoreOk && env.startCmdOk)) ∧
    (∀ ok acts, Ev.evRollback ok acts ∈ (main_run menv mfs).events →
      (main_run menv mfs).exitCode = 1) := by
  refine ⟨?_, ?_, ?_⟩
  · simp only [rollback]
    rw [hfound]
    by_cases hr : env.restoreOk = true <;>
      by_cases hs : start_application env.startScriptExists env.startCmdOk = true <;>
        simp [hr, hs]
  · simp only [rollback]
    rw [hfound]
    by_cases hr : env.restoreOk = true <;>
      by_cases hs : env.startCmdOk = true <;>
        simp [hr, hs, start_application]
  · intro ok acts hmem
    rcases main_run_shape menv mfs with
      ⟨h, hr⟩ | ⟨h, hr⟩ | ⟨h, hr⟩ | ⟨h, hr⟩ | ⟨h, hr⟩ | ⟨h, hr⟩ | ⟨h, hr⟩ |
      ⟨h, q, hbq, hr⟩ | ⟨h, hbq, hr⟩ | ⟨h, hr⟩ | ⟨h, q, hbq, hr⟩ |
      ⟨h, hbq, hr⟩ | ⟨h, hr⟩ <;> rw [hr] at hmem ⊢
    · exact handle_exn_exit _ _ _ _
    · exact handle_exn_exit _ _ _ _
    · exact handle_exn_exit _ _ _ _
    · exact handle_exn_exit _ _ _ _
    · exact handle_exn_exit _ _ _ _
    · exact handle_exn_exit _ _ _ _
    · exfalso
      rcases List.mem_append.mp hmem with h' | h'
      · exact (no_rollback_in_prefixes menv mfs ok acts).2.2.2.2.2 h'
      · simp at h'

/-- C1: every run of the orchestrator produces exactly one terminal outcome,
with exit code 0 or 1, and the exit code is 0 exactly when the deployment
succeeded (the health check passed); every failure path — stop, deploy,
start or health-check failure, interruption, unexpected exception, with or
without rollback — exits 1. -/
theorem c1_exit_code_iff_success (env : Env) (fs0 : FsState) :
    ((main_run env fs0).exitCode = 0 ∨ (main_run env fs0).exitCode = 1) ∧
    ((main_run env fs0).exitCode = 0 ↔
      Ev.evHealth true ∈ (main_run env fs0).events) := by
  have hH := no_health_in_prefixes env fs0 true
  rcases main_run_shape env fs0 with
    ⟨h, hr⟩ | ⟨h, hr⟩ | ⟨h, hr⟩ | ⟨h, hr⟩ | ⟨h, hr⟩ | ⟨h, hr⟩ | ⟨h, hr⟩ |
    ⟨h, p, hbp, hr⟩ | ⟨h, hbp, hr⟩ | ⟨h, hr⟩ | ⟨h, p, hbp, hr⟩ |
    ⟨h, hbp, hr⟩ | ⟨h, hr⟩ <;> rw [hr]
  · exact ⟨Or.inr (handle_exn_exit _ _ _ _),
      iff_of_false (by rw [handle_exn_exit]; omega)
        (handle_exn_no_health _ _ _ _ _ (by simp))⟩
  · exact ⟨Or.inr (handle_exn_exit _ _ _ _),
      iff_of_false (by rw [handle_exn_exit]; omega)
        (handle_exn_no_health _ _ _ _ _ hH.1)⟩
  · exact ⟨Or.inr (handle_exn_exit _ _ _ _),
      iff_of_false (by rw [handle_exn_exit]; omega)
        (handle_exn_no_health _ _ _ _ _ hH.2.1)⟩
  · exact ⟨Or.inr rfl, iff_of_false (by simp) hH.2.2.1⟩
  · exact ⟨Or.inr (handle_exn_exit _ _ _ _),
      iff_of_false (by rw [handle_exn_exit]; omega)
        (handle_exn_no_health _ _ _ _ _ hH.2.2.1)⟩
  · exact ⟨Or.inr rfl, iff_of_false (by simp) hH.2.2.2.1⟩
  · exact ⟨Or.inr (handle_exn_exit _ _ _ _),
      iff_of_false (by rw [handle_exn_exit]; omega)
        (handle_exn_no_health _ _ _ _ _ hH.2.2.2.1)⟩
  · refine ⟨Or.inr rfl, iff_of_false (by simp) ?_⟩
    intro hm
    rcases List.mem_append.mp hm with h' | h'
    · exact hH.2.2.2.2 h'
    · simp at h'
  · exact ⟨Or.inr rfl, iff_of_false (by simp) hH.2.2.2.2⟩
  · exact ⟨Or.inr (handle_exn_exit _ _ _ _),
      iff_of_false (by rw [handle_exn_exit]; omega)
        (handle_exn_no_health _ _ _ _ _ hH.2.2.2.2)⟩
  · refine ⟨Or.inr rfl, iff_of_false (by simp) ?_⟩
    intro hm
    rcases List.mem_append.mp hm with h' | h'
    · have hb := (evHealth_mem_iff env fs0 true).mp h'
      rw [h] at hb
      simp at hb
    · simp at h'
  · refine ⟨Or.inr rfl, iff_of_false (by simp) ?_⟩
    intro hm
    have hb := (evHealth_mem_iff env fs0 true).mp hm
    rw [h] at hb
    simp at hb
  · exact ⟨Or.inl rfl, iff_of_true rfl
      (List.mem_append_left _ ((evHealth_mem_iff env fs0 true).mpr h.symm))⟩

/-- C2: if the backup step recorded no backup path, rollback is never
invoked, whatever fails later (start or health failure, interruption,
unexpected exception all fall through to a failed outcome); and whenever a
rollback runs at all — in particular whenever the deployment location is
deleted, which only the rollback's restore command does — a backup holding
the deployment location's prior contents had been taken. -/
theorem c2_no_backup_no_rollback (env : Env) (fs0 : FsState) :
    (main_backup_path env fs0 = none →
      ∀ ok acts, Ev.evRollback ok acts ∉ (main_run env fs0).events) ∧
    (∀ ok acts, Ev.evRollback ok acts ∈ (main_run env fs0).events →
      RbAction.deployDeleted ∈ acts →
      ∃ p c, main_backup_path env fs0 = some p ∧
        fs0.deployContents = some c ∧
        (main_fs_after_backup env fs0).backupStore.lookup p = some c) := by
  constructor
  · intro hn ok acts hm
    rcases main_run_shape env fs0 with
      ⟨h, hr⟩ | ⟨h, hr⟩ | ⟨h, hr⟩ | ⟨h, hr⟩ | ⟨h, hr⟩ | ⟨h, hr⟩ | ⟨h, hr⟩ |
      ⟨h, p, hbp, hr⟩ | ⟨h, hbp, hr⟩ | ⟨h, hr⟩ | ⟨h, p, hbp, hr⟩ |
      ⟨h, hbp, hr⟩ | ⟨h, hr⟩ <;> rw [hr] at hm
    · simp [handle_exn_none_eq] at hm
    · rw [handle_exn_none_eq] at hm
      exact (no_rollback_in_prefixes env fs0 ok acts).1 hm
    · rw [hn, handle_exn_none_eq] at hm
      exact (no_rollback_in_prefixes env fs0 ok acts).2.1 hm
    · exact (no_rollback_in_prefixes env fs0 ok acts).2.2.1 hm
    · rw [hn, handle_exn_none_eq] at hm
      exact (no_rollback_in_prefixes env fs0 ok acts).2.2.1 hm
    · exact (no_rollback_in_prefixes env fs0 ok acts).2.2.2.1 hm
    · rw [hn, handle_exn_none_eq] at hm
      exact (no_rollback_in_prefixes env fs0 ok acts).2.2.2.1 hm
    · rw [hn] at hbp
      simp at hbp
    · exact (no_rollback_in_prefixes env fs0 ok acts).2.2.2.2.1 hm
    · rw [hn, handle_exn_none_eq] at hm
      exact (no_rollback_in_prefixes env fs0 ok acts).2.2.2.2.1 hm
    · rw [hn] at hbp
      simp at hbp
    · exact (no_rollback_in_prefixes env fs0 ok acts).2.2.2.2.2 hm
    · rcases List.mem_append.mp hm with h' | h'
      · exact (no_rollback_in_prefixes env fs0 ok acts).2.2.2.2.2 h'
      · simp at h'
  · intro ok acts hm _
    rcases main_run_shape env fs0 with
      ⟨h, hr⟩ | ⟨h, hr⟩ | ⟨h, hr⟩ | ⟨h, hr⟩ | ⟨h, hr⟩ | ⟨h, hr⟩ | ⟨h, hr⟩ |
      ⟨h, p, hbp, hr⟩ | ⟨h, hbp, hr⟩ | ⟨h, hr⟩ | ⟨h, p, hbp, hr⟩ |
      ⟨h, hbp, hr⟩ | ⟨h, hr⟩ <;> rw [hr] at hm
    · simp [handle_exn_none_eq] at hm
    · rw [handle_exn_none_eq] at hm
      exact absurd hm ((no_rollback_in_prefixes env fs0 ok acts).1)
    · rcases hbp : main_backup_path env fs0 with _ | p
      · rw [hbp, handle_exn_none_eq] at hm
        exact absurd hm ((no_rollback_in_prefixes env fs0 ok acts).2.1)
      · obtain ⟨c, hc, hlk⟩ := main_backup_path_some env fs0 p hbp
        exact ⟨p, c, rfl, hc, hlk⟩
    · exact absurd hm ((no_rollback_in_prefixes env fs0 ok acts).2.2.1)
    · rcases hbp : main_backup_path env fs0 with _ | p
      · rw [hbp, handle_exn_none_eq] at hm
        exact absurd hm ((no_rollback_in_prefixes env fs0 ok acts).2.2.1)
      · obtain ⟨c, hc, hlk⟩ := main_backup_path_some env fs0 p hbp
        exact ⟨p, c, rfl, hc, hlk⟩
    · exact absurd hm ((no_rollback_in_prefixes env fs0 ok acts).2.2.2.1)
    · rcases hbp : main_backup_path env fs0 with _ | p
      · rw [hbp, handle_exn_none_eq] at hm
        exact absurd hm ((no_rollback_in_prefixes env fs0 ok acts).2.2.2.1)
      · obtain ⟨c, hc, hlk⟩ := main_backup_path_some env fs0 p hbp
        exact ⟨p, c, rfl, hc, hlk⟩
    · obtain ⟨c, hc, hlk⟩ := main_backup_path_some env fs0 p hbp
      exact ⟨p, c, hbp, hc, hlk⟩
    · exact absurd hm ((no_rollback_in_prefixes env fs0 ok acts).2.2.2.2.1)
    · rcases hbp : main_backup_path env fs0 with _ | p
      · rw [hbp, handle_exn_none_eq] at hm
        exact absurd hm ((no_rollback_in_prefixes env fs0 ok acts).2.2.2.2.1)
      · obtain ⟨c, hc, hlk⟩ := main_backup_path_some env fs0 p hbp
        exact ⟨p, c, rfl, hc, hlk⟩
    · obtain ⟨c, hc, hlk⟩ := main_backup_path_some env fs0 p hbp
      exact ⟨p, c, hbp, hc, hlk⟩
    · exact absurd hm ((no_rollback_in_prefixes env fs0 ok acts).2.2.2.2.2)
    · rcases List.mem_append.mp hm with h' | h'
      · exact absurd h' ((no_rollback_in_prefixes env fs0 ok acts).2.2.2.2.2)
      · simp at h'

/-- Witness for C2 at a concrete run where the app is running but the backup
command fails (backup path None) and the health check fails: no rollback
event occurs. -/
theorem c2_no_backup_no_rollback_witness :
    Ev.evRollback false [] ∉ (main_run envNoBackupHealthFail fsEx).events :=
  (c2_no_backup_no_rollback envNoBackupHealthFail fsEx).1 rfl false []

/-- Witness for C5 at a concrete backup store: the rolledBack flag equals
the conjunction of restore and start success. -/
theorem c5_rollingback_path_witness :
    (rollback (some backupPathEx) rbEnvEx fsExAfterBackup).1 =
      (rbEnvEx.restoreOk && rbEnvEx.startCmdOk) :=
  (c5_rollingback_path backupPathEx [("app", "v1")] rbEnvEx fsExAfterBackup
    (by decide) envSuccess fsEx).2.1

/-- C8: when the initial running check returns false, neither the backup nor
the pre-deploy stop is ever invoked, on any path of the run. -/
theorem c8_not_running_skips (env : Env) (fs0 : FsState)
    (h : check_app_running env.pgrepExit = false) :
    (∀ r, Ev.evBackup r ∉ (main_run env fs0).events) ∧
    (∀ b, Ev.evStop b ∉ (main_run env fs0).events) := by
  have hf := (not_mem_prefix_facts env fs0).2.2.2 h
  have toH : ∀ (e : Ev),
      (e ∈ evs_check env → e ∈ evs_health env fs0) ∧
      (e ∈ evs_backup env fs0 → e ∈ evs_health env fs0) ∧
      (e ∈ evs_stop env fs0 → e ∈ evs_health env fs0) ∧
      (e ∈ evs_deploy env fs0 → e ∈ evs_health env fs0) ∧
      (e ∈ evs_start env fs0 → e ∈ evs_health env fs0) := by
    intro e
    have m := mem_evs_mono env fs0 e
    exact ⟨fun hh => m.2.2.2.2 (m.1 hh), fun hh => m.2.2.2.2 (m.2.1 hh),
           fun hh => m.2.2.2.2 (m.2.2.1 hh), fun hh => m.2.2.2.2 (m.2.2.2.1 hh),
           m.2.2.2.2⟩
  have key : ∀ (e : Ev), e ∉ evs_health env fs0 →
      (∀ ok acts, e ≠ Ev.evRollback ok acts) → (∀ n, e ≠ Ev.evNotify n) →
      e ∉ (main_run env fs0).events := by
    intro e he hrb hnt hm
    rcases main_run_shape env fs0 with
      ⟨hg, hr⟩ | ⟨hg, hr⟩ | ⟨hg, hr⟩ | ⟨hg, hr⟩ | ⟨hg, hr⟩ | ⟨hg, hr⟩ |
      ⟨hg, hr⟩ | ⟨hg, p, hbp, hr⟩ | ⟨hg, hbp, hr⟩ | ⟨hg, hr⟩ |
      ⟨hg, p, hbp, hr⟩ | ⟨hg, hbp, hr⟩ | ⟨hg, hr⟩ <;> rw [hr] at hm
    · rcases handle_exn_mem _ _ _ _ _ hm with h' | ⟨ok, acts, h'⟩
      · simp at h'
      · exact hrb ok acts h'
    · rcases handle_exn_mem _ _ _ _ _ hm with h' | ⟨ok, acts, h'⟩
      · exact he ((toH e).1 h')
      · exact hrb ok acts h'
    · rcases handle_exn_mem _ _ _ _ _ hm with h' | ⟨ok, acts, h'⟩
      · exact he ((toH e).2.1 h')
      · exact hrb ok acts h'
    · exact he ((toH e).2.2.1 hm)
    · rcases handle_exn_mem _ _ _ _ _ hm with h' | ⟨ok, acts, h'⟩
      · exact he ((toH e).2.2.1 h')
      · exact hrb ok acts h'
    · exact he ((toH e).2.2.2.1 hm)
    · rcases handle_exn_mem _ _ _ _ _ hm with h' | ⟨ok, acts, h'⟩
      · exact he ((toH e).2.2.2.1 h')
      · exact hrb ok acts h'
    · rcases List.mem_append.mp hm with h' | h'
      · exact he ((toH e).2.2.2.2 h')
      · rw [List.mem_singleton] at h'
        exact hrb _ _ h'
    · exact he ((toH e).2.2.2.2 hm)
    · rcases handle_exn_mem _ _ _ _ _ hm with h' | ⟨ok, acts, h'⟩
      · exact he ((toH e).2.2.2.2 h')
      · exact hrb ok acts h'
    · rcases List.mem_append.mp hm with h' | h'
      · exact he h'
      · rcases List.mem_cons.mp h' with h'' | h''
        · exact hrb _ _ h''
        · rw [List.mem_singleton] at h''
          exact hnt _ h''
    · exact he hm
    · rcases List.mem_append.mp hm with h' | h'
      · exact he h'
      · rw [List.mem_singleton] at h'
        exact hnt _ h'
  exact ⟨fun r => key (Ev.evBackup r) (hf.1 r)
            (fun ok acts hq => Ev.noConfusion hq) (fun n hq => Ev.noConfusion hq),
         fun b => key (Ev.evStop b) (hf.2 b)
            (fun ok acts hq => Ev.noConfusion hq) (fun n hq => Ev.noConfusion hq)⟩

/-- Witness for C8 at a concrete run where the app is not running: no backup
event occurs. -/
theorem c8_not_running_skips_witness :
    Ev.evBackup none ∉ (main_run envDeployFail fsEx).events :=
  (c8_not_running_skips envDeployFail fsEx rfl).1 none

/-- C6 counterexample: a run whose deploy step fails terminates with exit
code 1 having emitted no notification at all — not exactly one per run. -/
theorem c6_notification_counterexample :
    ((main_run envDeployFail fsEx).events.filter Ev.isNotify).length = 0 ∧
    (main_run envDeployFail fsEx).exitCode = 1 := by
  constructor <;> rfl

/-- C6 amended: exactly one notification is emitted on the success path and
on the health-check-failure path when a backup exists; every other
terminating path (stop, deploy or start failure, health failure without a
backup, interruption, unexpected exception) emits none. -/
theorem c6_notification_amended (env : Env) (fs0 : FsState) :
    ((main_run env fs0).events.filter Ev.isNotify).length =
      (if (main_run env fs0).exitCode = 0 then 1
       else if Ev.evHealth false ∈ (main_run env fs0).events ∧
               main_backup_path env fs0 ≠ none then 1 else 0) := by
  have hfp := filter_notify_before_done env fs0
  have hH := no_health_in_prefixes env fs0 false
  rcases main_run_shape env fs0 with
    ⟨h, hr⟩ | ⟨h, hr⟩ | ⟨h, hr⟩ | ⟨h, hr⟩ | ⟨h, hr⟩ | ⟨h, hr⟩ | ⟨h, hr⟩ |
    ⟨h, p, hbp, hr⟩ | ⟨h, hbp, hr⟩ | ⟨h, hr⟩ | ⟨h, p, hbp, hr⟩ |
    ⟨h, hbp, hr⟩ | ⟨h, hr⟩ <;> rw [hr]
  · rw [handle_exn_none_eq]
    simp
  · rw [handle_exn_none_eq]
    simp [hfp.1, hH.1]
  · rcases hbp : main_backup_path env fs0 with _ | p
    · rw [handle_exn_none_eq]
      simp [hfp.2.1, hH.2.1]
    · rw [handle_exn_some_eq]
      simp [hfp.2.1, hH.2.1, Ev.isNotify]
  · simp [hfp.2.2.1, hH.2.2.1]
  · rcases hbp : main_backup_path env fs0 with _ | p
    · rw [handle_exn_none_eq]
      simp [hfp.2.2.1, hH.2.2.1]
    · rw [handle_exn_some_eq]
      simp [hfp.2.2.1, hH.2.2.1, Ev.isNotify]
  · simp [hfp.2.2.2.1, hH.2.2.2.1]
  · rcases hbp : main_backup_path env fs0 with _ | p
    · rw [handle_exn_none_eq]
      simp [hfp.2.2.2.1, hH.2.2.2.1]
    · rw [handle_exn_some_eq]
      simp [hfp.2.2.2.1, hH.2.2.2.1, Ev.isNotify]
  · simp [hfp.2.2.2.2.1, hH.2.2.2.2, Ev.isNotify, hbp]
  · simp [hfp.2.2.2.2.1, hH.2.2.2.2]
  · rcases hbp : main_backup_path env fs0 with _ | p
    · rw [handle_exn_none_eq]
      simp [hfp.2.2.2.2.1, hH.2.2.2.2]
    · rw [handle_exn_some_eq]
      simp [hfp.2.2.2.2.1, hH.2.2.2.2, Ev.isNotify]
  · have hmem : Ev.evHealth false ∈ evs_health env fs0 :=
      (evHealth_mem_iff env fs0 false).mpr h.symm
    simp [hfp.2.2.2.2.2, Ev.isNotify, hbp, hmem]
  · simp [hfp.2.2.2.2.2, hbp]
  · simp [hfp.2.2.2.2.2, Ev.isNotify]

end AutoDeploy
